import Mathlib

set_option linter.dupNamespace false

/-!
Shallow embedding of the `tyg_template` crate (files `src/error.rs` and
`src/lib.rs`) and verification of its specification.

Modelling conventions:
* `io::Error` is modelled by `IoError`, carrying the string its `Display`
  implementation produces (`ioDisplay`) and the string its `Debug`
  implementation produces (`ioDebug`); for a real platform error these
  differ (e.g. `No such file or directory (os error 2)` versus the
  structured `Os ...` debug form).
* Rust's `format!` is modelled by `formatArgs`, restricted to the plain `"{}"`
  placeholder form, which is the only form the crate uses: successive `"{}"`
  placeholders are replaced by the successive, already-rendered arguments.
* The `file!()` / `line!()` / `column!()` values captured by the error macros
  are modelled by a `CallSite` record passed explicitly; each call site in the
  crate is embedded with its concrete location.
* The `cfg!(feature = "disclose")` build flag is modelled by an explicit
  `Bool` parameter `disclose` on the bare macros.
* `&mut self` iteration is modelled by explicit state passing:
  `Counter.next` returns the produced item together with the updated counter.
* `println!` output is modelled by accumulating the printed lines in a list.
* `OsStr` paths are modelled as `String`s (valid unicode), on which
  `to_string_lossy` is the identity.
* `File::open` is modelled by a function parameter
  `fs : String → Except IoError File` giving the outcome of opening each path.
-/

namespace TygTemplate

/-- Model of `std::io::Error`: `msg` is the text its `Display` produces,
`debugMsg` the text its `Debug` produces. -/
structure IoError where
  msg : String
  debugMsg : String
deriving DecidableEq

/-- `Display` of an `io::Error`. -/
def ioDisplay (e : IoError) : String := e.msg

/-- `Debug` of an `io::Error`. -/
def ioDebug (e : IoError) : String := e.debugMsg

/-- Model of `std::fs::File`: an abstract handle with no observable content. -/
structure File where
deriving DecidableEq

/-- Rust `format!` restricted to plain `"{}"` placeholders (char-list level):
each `"{}"` consumes the next argument; all other characters are literal. -/
def formatChars : List Char → List String → List Char
  | '{' :: '}' :: rest, a :: args => a.data ++ formatChars rest args
  | c :: rest, args => c :: formatChars rest args
  | [], _ => []

/-- Rust `format!` restricted to plain `"{}"` placeholders. -/
def formatArgs (template : String) (args : List String) : String :=
  ⟨formatChars template.data args⟩

/-- The source location captured by `file!()`, `line!()`, `column!()` at a
macro invocation site. -/
structure CallSite where
  file : String
  line : Nat
  col : Nat

-- `pub enum Error` (src/error.rs, lines 199-204).

/-- The crate's error enumeration: `Error(String)` is the custom
application-raised variant, `File(io::Error)` wraps a platform error. -/
inductive Error where
  | Error : String → Error
  | File : IoError → Error
deriving DecidableEq

/-- `pub type Result<T> = std::result::Result<T, Error>` (src/error.rs, line 24). -/
abbrev Result (α : Type) : Type := Except Error α

-- The error-construction macros (src/error.rs).

/-- `option_err!` (src/error.rs, lines 53-59): disclosed error for
`Option → Result` conversion. -/
def option_err (site : CallSite) (template : String) (args : List String) : Error :=
  let details := formatArgs template args
  let error_text := formatArgs "{}:{}:{}: {}"
    [site.file, toString site.line, toString site.col, details]
  Error.Error error_text

/-- `option_err_bare!` (src/error.rs, lines 92-103): bare error for
`Option → Result` conversion; `disclose` models `cfg!(feature = "disclose")`. -/
def option_err_bare (disclose : Bool) (site : CallSite) (template : String)
    (args : List String) : Error :=
  if disclose then
    let details := formatArgs template args
    let error_text := formatArgs "{}:{}:{}: {}"
      [site.file, toString site.line, toString site.col, details]
    Error.Error error_text
  else
    let details := formatArgs template args
    Error.Error details

/-- `result_err!` (src/error.rs, lines 130-136): disclosed error already
wrapped in `Err`. -/
def result_err {α : Type} (site : CallSite) (template : String)
    (args : List String) : Result α :=
  let details := formatArgs template args
  let error_text := formatArgs "{}:{}:{}: {}"
    [site.file, toString site.line, toString site.col, details]
  Except.error (Error.Error error_text)

/-- `result_err_bare!` (src/error.rs, lines 167-178): bare error already
wrapped in `Err`; `disclose` models `cfg!(feature = "disclose")`. -/
def result_err_bare {α : Type} (disclose : Bool) (site : CallSite)
    (template : String) (args : List String) : Result α :=
  if disclose then
    let details := formatArgs template args
    let error_text := formatArgs "{}:{}:{}: {}"
      [site.file, toString site.line, toString site.col, details]
    Except.error (Error.Error error_text)
  else
    let details := formatArgs template args
    Except.error (Error.Error details)

-- Formatting (src/error.rs, lines 180-216).

/-- The shared `formatter!` macro (src/error.rs, lines 180-187): for the
custom variant it performs `write!(f, "{}", e)`, which renders the `String`
verbatim in both impls; for the file variant it performs `e.fmt(f)`, a trait
method call that resolves to the trait of the enclosing impl, so the macro's
expansion is parametric in the inner `io::Error` renderer (`ioFmt`). -/
def formatter (ioFmt : IoError → String) : Error → String
  | Error.Error e => formatArgs "{}" [e]
  | Error.File e => ioFmt e

/-- `impl fmt::Debug for Error` (src/error.rs, lines 206-210): inside this
impl the macro's `e.fmt(f)` is `<io::Error as fmt::Debug>::fmt`. -/
def fmtDebug (e : Error) : String := formatter ioDebug e

/-- `impl fmt::Display for Error` (src/error.rs, lines 212-216): inside this
impl the macro's `e.fmt(f)` is `<io::Error as fmt::Display>::fmt`. -/
def fmtDisplay (e : Error) : String := formatter ioDisplay e

/-- `impl std::error::Error for Error` — `source` (src/error.rs, lines 218-225). -/
def Error.source : TygTemplate.Error → Option IoError
  | Error.Error _ => none
  | Error.File e => some e

/-- `impl From<io::Error> for Error` (src/error.rs, lines 227-231). -/
def Error.fromIoError (err : IoError) : TygTemplate.Error := Error.File err

/-- The `?` operator applied to a `std::result::Result<α, io::Error>` inside a
function returning the crate's `Result`: `Err` goes through `From`. -/
def liftIoResult {α : Type} : Except IoError α → Result α
  | Except.ok a => Except.ok a
  | Except.error e => Except.error (Error.fromIoError e)

/-- Rust `Result::or_else` with an error-type-changing closure, as used in
`file_fail_demo`. -/
def orElseR {α : Type} (r : Except IoError α) (f : IoError → Result α) : Result α :=
  match r with
  | Except.ok a => Except.ok a
  | Except.error e => f e

-- The Counter iterator (src/lib.rs, lines 182-211).

/-- `struct Counter` (src/lib.rs, lines 182-184). `count: u32` is modelled by
`Nat`: it is only ever incremented while `count < 11`, so no overflow occurs. -/
structure Counter where
  count : Nat
deriving DecidableEq

/-- `Counter::new` (src/lib.rs, lines 186-191). -/
def Counter.new : Counter := ⟨0⟩

/-- The call site of the `result_err!` invocation inside `Counter::next`
(src/lib.rs, line 203, column 22). -/
def counterSite : CallSite := ⟨"src/lib.rs", 203, 22⟩

/-- `impl Iterator for Counter` — `next` (src/lib.rs, lines 193-211):
returns the produced item and the updated counter state. -/
def Counter.next (c : Counter) : Option (Result Nat) × Counter :=
  if c.count < 11 then
    let count := c.count + 1
    if count ≥ 5 then
      (some (result_err counterSite "Failed at cycle {}" [toString count]), ⟨count⟩)
    else
      (some (Except.ok count), ⟨count⟩)
  else
    (none, c)

/-- The `for n in counter { println!("Cycle {}", n?); }` loop of
`recursive_fail_demo` (src/lib.rs, lines 228-232): accumulates the printed
lines and early-returns the first failing item. `gas` is the structural bound
`11 - count` on the remaining productions; since `Counter.next` produces an
item exactly while `count < 11`, `gas = 0` coincides with the iterator being
exhausted, so the `gas = 0` branch is the loop's natural termination. -/
def forCounter : Nat → Counter → List String → List String × Result Unit
  | 0, _, lines => (lines, Except.ok ())
  | Nat.succ gas, c, lines =>
    match Counter.next c with
    | (none, _) => (lines, Except.ok ())
    | (some (Except.ok n), c2) =>
      forCounter gas c2 (lines ++ [formatArgs "Cycle {}" [toString n]])
    | (some (Except.error e), _) => (lines, Except.error e)

/-- `recursive_fail_demo` (src/lib.rs, lines 225-234): returns the printed
lines and the outcome. -/
def recursive_fail_demo : List String × Result Unit :=
  forCounter (11 - Counter.new.count) Counter.new ["We need to fail at cycle 5"]

-- file_fail_demo (src/lib.rs, lines 257-266).

/-- `OsStr::to_string_lossy` on the `String` model of `OsStr`: identity. -/
def to_string_lossy (path : String) : String := path

/-- The call site of the `result_err!` invocation inside `file_fail_demo`
(src/lib.rs, line 261, column 26). -/
def fileFailSite : CallSite := ⟨"src/lib.rs", 261, 26⟩

/-- `file_fail_demo` (src/lib.rs, lines 257-266): `fs` models `File::open`. -/
def file_fail_demo (fs : String → Except IoError File) (better : Bool)
    (path : String) : Result Unit :=
  let file := fs path
  if better then
    match orElseR file
        (fun e => result_err fileFailSite "{}: {}" [to_string_lossy path, ioDisplay e]) with
    | Except.error err => Except.error err
    | Except.ok _ => Except.ok ()
  else
    match liftIoResult file with
    | Except.error err => Except.error err
    | Except.ok _ => Except.ok ()

-- Concrete environments used for witnesses and counterexamples.

/-- A concrete "not found" platform error, with the `Display` and `Debug`
texts `std::io::Error` produces for os error 2 on a Unix-like platform. -/
def osErrorNotFound : IoError :=
  ⟨"No such file or directory (os error 2)",
   "Os \x7b code: 2, kind: NotFound, message: \"No such file or directory\" \x7d"⟩

/-- A filesystem on which every open fails with a "not found" platform error. -/
def missingFs : String → Except IoError File :=
  fun _ => Except.error osErrorNotFound

/-- A filesystem on which every open succeeds. -/
def okFs : String → Except IoError File := fun _ => Except.ok ⟨⟩

-- Helper lemmas about the formatting model.

/-- String concatenation acts as list concatenation on the character data. -/
theorem data_append (a b : String) : (a ++ b).data = a.data ++ b.data := rfl

/-- The disclosed-location template interpolates to the colon-joined form. -/
theorem formatArgs_loc (a b c d : String) :
    formatArgs "{}:{}:{}: {}" [a, b, c, d] = a ++ ":" ++ b ++ ":" ++ c ++ ": " ++ d := by
  apply String.ext
  show a.data ++ (':' :: (b.data ++ (':' :: (c.data ++ (':' :: (' ' :: (d.data ++ [])))))))
      = ((((((a ++ ":") ++ b) ++ ":") ++ c) ++ ": ") ++ d).data
  simp [data_append, List.append_assoc]

/-- A bare placeholder template interpolates to its argument. -/
theorem formatArgs_single (s : String) : formatArgs "{}" [s] = s := by
  apply String.ext
  show s.data ++ [] = s.data
  simp

/-- The two-argument template used by `file_fail_demo`. -/
theorem formatArgs_pair (a b : String) :
    formatArgs "{}: {}" [a, b] = a ++ ": " ++ b := by
  apply String.ext
  show a.data ++ (':' :: ' ' :: (b.data ++ [])) = ((a ++ ": ") ++ b).data
  simp [data_append]

/-- The failure-message template used by `Counter::next`. -/
theorem formatArgs_cycle (s : String) :
    formatArgs "Failed at cycle {}" [s] = "Failed at cycle " ++ s := by
  apply String.ext
  show 'F' :: 'a' :: 'i' :: 'l' :: 'e' :: 'd' :: ' ' :: 'a' :: 't' :: ' ' :: 'c' :: 'y'
        :: 'c' :: 'l' :: 'e' :: ' ' :: (s.data ++ [])
      = ("Failed at cycle " ++ s).data
  simp [data_append]

/-- `option_err!` produces the custom variant with the colon-joined location text. -/
theorem option_err_eq (site : CallSite) (t : String) (args : List String) :
    option_err site t args
      = Error.Error (site.file ++ ":" ++ toString site.line ++ ":"
          ++ toString site.col ++ ": " ++ formatArgs t args) := by
  show Error.Error (formatArgs "{}:{}:{}: {}"
      [site.file, toString site.line, toString site.col, formatArgs t args]) = _
  rw [formatArgs_loc]

/-- `result_err!` produces `Err` of the custom variant with the colon-joined
location text. -/
theorem result_err_eq (α : Type) (site : CallSite) (t : String) (args : List String) :
    result_err (α := α) site t args
      = Except.error (Error.Error (site.file ++ ":" ++ toString site.line ++ ":"
          ++ toString site.col ++ ": " ++ formatArgs t args)) := by
  show Except.error (Error.Error (formatArgs "{}:{}:{}: {}"
      [site.file, toString site.line, toString site.col, formatArgs t args])) = _
  rw [formatArgs_loc]

/-- The shared renderer prints the custom variant's message verbatim. -/
theorem fmtDisplay_custom (s : String) : fmtDisplay (Error.Error s) = s :=
  formatArgs_single s

-- Claim theorems.

/-- Claim C1: for every format template and argument list, the disclosed
constructors `result_err` (producing `Err(Custom)`) and `option_err`
(producing `Custom`) yield an error value whose formatted text is exactly the
construction site's file, line and column joined by colons, followed by
`": "` and the eagerly interpolated message. -/
theorem disclosed_constructors_format (site : CallSite) (t : String) (args : List String) :
    option_err site t args
      = Error.Error (site.file ++ ":" ++ toString site.line ++ ":"
          ++ toString site.col ++ ": " ++ formatArgs t args)
    ∧ fmtDisplay (option_err site t args)
      = site.file ++ ":" ++ toString site.line ++ ":"
          ++ toString site.col ++ ": " ++ formatArgs t args
    ∧ result_err (α := Unit) site t args
      = Except.error (Error.Error (site.file ++ ":" ++ toString site.line ++ ":"
          ++ toString site.col ++ ": " ++ formatArgs t args)) :=
  ⟨option_err_eq site t args,
   by rw [option_err_eq site t args]; exact fmtDisplay_custom _,
   result_err_eq Unit site t args⟩

/-- Claim C2: with the `disclose` build flag unset, the bare constructors
produce an error value whose formatted text is exactly the interpolated
message with no location prefix; with the flag set, they coincide with the
corresponding disclosed constructors at the same call site and arguments. -/
theorem bare_constructors_format (site : CallSite) (t : String) (args : List String) :
    (result_err_bare (α := Unit) false site t args
        = Except.error (Error.Error (formatArgs t args))
      ∧ option_err_bare false site t args = Error.Error (formatArgs t args)
      ∧ fmtDisplay (Error.Error (formatArgs t args)) = formatArgs t args)
    ∧ (result_err_bare (α := Unit) true site t args = result_err site t args
      ∧ option_err_bare true site t args = option_err site t args) :=
  ⟨⟨rfl, rfl, fmtDisplay_custom _⟩, ⟨rfl, rfl⟩⟩

/-- Counterexample to claim C3 as stated: for a wrapped platform error the
`Debug` rendering delegates to `io::Error`'s `Debug` and the `Display`
rendering to its `Display`, and for the concrete "not found" error these are
not byte-identical. -/
theorem debug_display_counterexample :
    fmtDebug (Error.File osErrorNotFound) = ioDebug osErrorNotFound
    ∧ fmtDisplay (Error.File osErrorNotFound) = ioDisplay osErrorNotFound
    ∧ (fmtDebug (Error.File osErrorNotFound) == fmtDisplay (Error.File osErrorNotFound))
      = false :=
  ⟨rfl, rfl, by decide⟩

/-- Claim C3 (amended): for the `Custom` variant, the `Debug` and `Display`
renderings are byte-identical — both arms of the shared per-variant renderer
print the stored message verbatim. For the `Wrapped` variant, the shared
renderer delegates to the inner platform error's formatting for the
respective trait: `Debug` yields the platform error's own `Debug` text and
`Display` its own `Display` text, which in general differ. -/
theorem debug_display_amended (s : String) (e : IoError) :
    fmtDebug (Error.Error s) = fmtDisplay (Error.Error s)
    ∧ fmtDebug (Error.Error s) = s
    ∧ fmtDebug (Error.File e) = ioDebug e
    ∧ fmtDisplay (Error.File e) = ioDisplay e :=
  ⟨rfl, formatArgs_single s, rfl, rfl⟩

/-- Claim C4: a fresh `Counter` starts at 0; while producing, `next` advances
the counter by 1; counter values 1-4 are produced as successes, values 5-11
as disclosed custom errors naming the current counter value, and once the
counter has reached 11 every call produces no item and leaves the counter
unchanged. -/
theorem counter_production_spec (k : Nat) :
    Counter.new.count = 0
    ∧ (k < 11 → (Counter.next ⟨k⟩).2 = ⟨k + 1⟩)
    ∧ (k < 11 → k + 1 ≤ 4 → (Counter.next ⟨k⟩).1 = some (Except.ok (k + 1)))
    ∧ (k < 11 → 5 ≤ k + 1 → (Counter.next ⟨k⟩).1
        = some (Except.error (Error.Error
            ("src/lib.rs:203:22: Failed at cycle " ++ toString (k + 1)))))
    ∧ (11 ≤ k → Counter.next ⟨k⟩ = (none, ⟨k⟩)) := by
  refine ⟨rfl, ?_, ?_, ?_, ?_⟩
  · intro h1
    unfold Counter.next
    by_cases h2 : k + 1 ≥ 5 <;> simp [h1, h2]
  · intro h1 h2
    unfold Counter.next
    have h3 : ¬ (k + 1 ≥ 5) := by omega
    simp [h1, h3]
  · intro h1 h2
    unfold Counter.next
    simp only [h1, if_pos, ge_iff_le, h2]
    rw [result_err_eq, formatArgs_cycle]
    rfl
  · intro h
    unfold Counter.next
    have h1 : ¬ (k < 11) := by omega
    simp [h1]

/-- Witness for claim C4: concrete instances — a success production at
counter value 3, the failure production at counter value 5, and exhaustion
once the counter has reached 11. -/
theorem counter_production_spec_witness :
    (Counter.next ⟨2⟩).1 = some (Except.ok 3)
    ∧ (Counter.next ⟨4⟩).1
        = some (Except.error (Error.Error
            ("src/lib.rs:203:22: Failed at cycle " ++ toString 5)))
    ∧ Counter.next ⟨11⟩ = (none, ⟨11⟩) :=
  ⟨(counter_production_spec 2).2.2.1 (by decide) (by decide),
   (counter_production_spec 4).2.2.2.1 (by decide) (by decide),
   (counter_production_spec 11).2.2.2.2 (by decide)⟩

/-- Claim C5: `recursive_fail_demo` prints its introductory line followed by
exactly `Cycle 1` through `Cycle 4`, and returns the failure produced at
counter value 5, printing nothing further. -/
theorem recursive_fail_demo_run :
    recursive_fail_demo
      = (["We need to fail at cycle 5", "Cycle 1", "Cycle 2", "Cycle 3", "Cycle 4"],
         Except.error (Error.Error "src/lib.rs:203:22: Failed at cycle 5")) := rfl

set_option maxRecDepth 4096

/-- Counterexample to claim C6 as stated: on a failing open of
`"no-such-file"`, the displayed message of the error returned by
`file_fail_demo` with the `better` flag does NOT start with the literal path
string — it starts with the disclosed source-location prefix. -/
theorem file_fail_better_counterexample :
    file_fail_demo missingFs true "no-such-file"
      = Except.error (Error.Error
          "src/lib.rs:261:26: no-such-file: No such file or directory (os error 2)")
    ∧ List.isPrefixOf ("no-such-file".data)
        (fmtDisplay (Error.Error
          "src/lib.rs:261:26: no-such-file: No such file or directory (os error 2)")).data
      = false :=
  ⟨rfl, by decide⟩

/-- Claim C6 (amended): for every path on which the underlying file-open
fails, `file_fail_demo true path` returns a custom error value whose
displayed message is the disclosed construction-site prefix
`src/lib.rs:261:26: ` followed by the literal path string, `": "`, and the
platform error's message. -/
theorem file_fail_better_amended (fs : String → Except IoError File) (path : String)
    (e : IoError) (h : fs path = Except.error e) :
    file_fail_demo fs true path
      = Except.error (Error.Error
          ("src/lib.rs:261:26: " ++ (path ++ ": " ++ ioDisplay e)))
    ∧ fmtDisplay (Error.Error ("src/lib.rs:261:26: " ++ (path ++ ": " ++ ioDisplay e)))
      = "src/lib.rs:261:26: " ++ (path ++ ": " ++ ioDisplay e) := by
  constructor
  · simp only [file_fail_demo, orElseR, h, to_string_lossy, if_true]
    rw [result_err_eq, formatArgs_pair]
    rfl
  · exact fmtDisplay_custom _

/-- Witness for the amended claim C6: the concrete missing-file filesystem
and path `"no-such-file"`. -/
theorem file_fail_better_amended_witness :
    missingFs "no-such-file" = Except.error osErrorNotFound
    ∧ file_fail_demo missingFs true "no-such-file"
        = Except.error (Error.Error ("src/lib.rs:261:26: "
            ++ ("no-such-file" ++ ": " ++ ioDisplay osErrorNotFound))) :=
  ⟨rfl,
   (file_fail_better_amended missingFs "no-such-file" osErrorNotFound rfl).1⟩

/-- Claim C7: for every path on which the underlying file-open fails,
`file_fail_demo false path` returns the wrapped variant holding the platform
error unchanged (as its `source`), and its displayed message is exactly the
platform error's own display string. -/
theorem file_fail_plain_spec (fs : String → Except IoError File) (path : String)
    (e : IoError) (h : fs path = Except.error e) :
    file_fail_demo fs false path = Except.error (Error.File e)
    ∧ fmtDisplay (Error.File e) = ioDisplay e
    ∧ Error.source (Error.File e) = some e := by
  refine ⟨?_, rfl, rfl⟩
  simp [file_fail_demo, liftIoResult, h, Error.fromIoError]

/-- Witness for claim C7: the concrete missing-file filesystem. -/
theorem file_fail_plain_spec_witness :
    missingFs "no-such-file" = Except.error osErrorNotFound
    ∧ file_fail_demo missingFs false "no-such-file"
        = Except.error (Error.File osErrorNotFound) :=
  ⟨rfl,
   (file_fail_plain_spec missingFs "no-such-file" osErrorNotFound rfl).1⟩

/-- Claim C8: `source` is absent for the custom variant and returns the
wrapped platform error for the file variant. -/
theorem error_source_spec (s : String) (e : IoError) :
    Error.source (Error.Error s) = none ∧ Error.source (Error.File e) = some e :=
  ⟨rfl, rfl⟩

/-- Claim C9: the implicit conversion from a platform error always yields the
wrapped `File` variant holding that platform error unchanged (hence never the
custom variant). -/
theorem from_io_always_wrapped (e : IoError) :
    Error.fromIoError e = Error.File e := rfl

/-- Claim C10: whenever the underlying file-open succeeds, `file_fail_demo`
returns `Ok(())` for both values of the `better` flag. -/
theorem file_fail_success_spec (fs : String → Except IoError File) (path : String)
    (f : File) (better : Bool) (h : fs path = Except.ok f) :
    file_fail_demo fs better path = Except.ok () := by
  cases better <;> simp [file_fail_demo, orElseR, liftIoResult, h]

/-- Witness for claim C10: the concrete always-succeeding filesystem, with
the `better` flag both set and unset. -/
theorem file_fail_success_spec_witness :
    okFs "some-file" = Except.ok ⟨⟩
    ∧ file_fail_demo okFs true "some-file" = Except.ok ()
    ∧ file_fail_demo okFs false "some-file" = Except.ok () :=
  ⟨rfl,
   file_fail_success_spec okFs "some-file" ⟨⟩ true rfl,
   file_fail_success_spec okFs "some-file" ⟨⟩ false rfl⟩

end TygTemplate
